/-
Verification of the manamesh scrape-orchestration core against its
natural-language specification.

The Python sources embedded here (shallowly, as pure Lean functions) are:
  * tools/card-scraper/card_scraper/models.py      — data model & ScrapeState methods
  * tools/card-scraper/card_scraper/state.py       — StateTracker load/save (de)serialization
  * tools/card-scraper/card_scraper/scraper.py     — set discovery, card fetch fallback,
                                                     pipeline control flow, download-stage
                                                     status re-derivation
  * tools/onepiece-scraper/onepiece_scraper/downloader.py — image downloader

Python dicts are modelled as insertion-ordered association lists
(`List (String × v)`) with lookup (`dictGet`), assignment (`dictInsert`:
replace-in-place if the key is present, append otherwise — exactly the Python assignment
`d[k] = v`), and `setdefault` composed from those two.  Python sets are
modelled as lists used only through membership.  Exceptions are modelled with
`Except PyErr`; I/O oracles (adapter results, HTTP attempt outcomes, the file
system) are passed in as explicit arguments.
-/
import Mathlib

namespace Manamesh

/-! ## Python dict model -/

/-- Python dict lookup `d.get(k)` / `d[k]` on an insertion-ordered association list. -/
def dictGet {v : Type} : List (String × v) → String → Option v
  | [], _ => none
  | (k', x) :: rest, k => if k' = k then some x else dictGet rest k

/-- Python `d[k] = x`: replace in place when the key is present (keeping its
position), append otherwise. -/
def dictInsert {v : Type} : List (String × v) → String → v → List (String × v)
  | [], k, x => [(k, x)]
  | (k', y) :: rest, k, x =>
    if k' = k then (k, x) :: rest else (k', y) :: dictInsert rest k x

/-! ## models.py — data model -/

/-- Model of `SetInfo` (models.py): metadata about a card set. -/
structure SetInfo where
  id : String
  name : String
  category : String
deriving DecidableEq, Repr

/-- Model of `CardDataBase` (models.py): base card data produced by any adapter. -/
structure CardDataBase where
  id : String
  name : String
  image_url : String
  set_id : String
  source : String
  rarity : String := ""
deriving DecidableEq, Repr

/-- Model of `CardImageStatus` (models.py): download status for one card image. -/
structure CardImageStatus where
  card_id : String
  status : String
  path : Option String := none
  error : Option String := none
deriving DecidableEq, Repr

/-- Model of `SetScrapeState` (models.py): scrape state for a single set. -/
structure SetScrapeState where
  set_id : String
  last_scraped : Option String := none
  card_ids : List String := []
  images : List (String × CardImageStatus) := []
deriving DecidableEq, Repr

/-- Model of `ScrapeState` (models.py): top-level scrape state across all sets. -/
structure ScrapeState where
  sets : List (String × SetScrapeState) := []
deriving DecidableEq, Repr

/-- Predicate `ScrapeState.is_card_scraped` (models.py). -/
def ScrapeState.is_card_scraped (s : ScrapeState) (set_id card_id : String) : Bool :=
  match dictGet s.sets set_id with
  | none => false
  | some ss => decide (card_id ∈ ss.card_ids)

/-- Predicate `ScrapeState.is_image_downloaded` (models.py): true only if stored status is "success". -/
def ScrapeState.is_image_downloaded (s : ScrapeState) (set_id card_id : String) : Bool :=
  match dictGet s.sets set_id with
  | none => false
  | some ss =>
    match dictGet ss.images card_id with
    | none => false
    | some img => img.status = "success"

/-- Method `ScrapeState.mark_card_scraped` (models.py): `setdefault` of the set entry, then
append the card id if absent. -/
def ScrapeState.mark_card_scraped (s : ScrapeState) (set_id card_id : String) : ScrapeState :=
  let ss := (dictGet s.sets set_id).getD { set_id := set_id }
  let ss' :=
    if card_id ∈ ss.card_ids then ss
    else { ss with card_ids := ss.card_ids ++ [card_id] }
  { s with sets := dictInsert s.sets set_id ss' }

/-- Method `ScrapeState.mark_image` (models.py): `setdefault` of the set entry, then upsert the
image status (last write wins, no history). -/
def ScrapeState.mark_image (s : ScrapeState) (set_id card_id status : String)
    (path : Option String := none) (error : Option String := none) : ScrapeState :=
  let ss := (dictGet s.sets set_id).getD { set_id := set_id }
  let img : CardImageStatus :=
    { card_id := card_id, status := status, path := path, error := error }
  let ss' := { ss with images := dictInsert ss.images card_id img }
  { s with sets := dictInsert s.sets set_id ss' }

/-- The card-id list recorded for a set (empty when the set is absent). -/
def ScrapeState.cardIds (s : ScrapeState) (set_id : String) : List String :=
  ((dictGet s.sets set_id).map SetScrapeState.card_ids).getD []

/-! ## state.py — JSON (de)serialization and load

JSON documents (the result of `json.loads`) are modelled by `Json`.  Python
exceptions relevant to `_deserialize_state` are modelled by `PyErr`:
`attributeError` is raised by `x.get(...)` / `x.items()` on a non-dict,
`typeError` by `x[key]` string-subscription of a non-dict, `keyError` by
`x[key]` on a dict missing the key.  `illTyped` is a Lean-side marker for the
places where Python would silently store a value of the wrong type into a
typed dataclass field (no Python exception exists there); no theorem below
depends on those branches. -/

/-- A parsed JSON document (output of `json.loads`). -/
inductive Json where
  | null
  | bool (b : Bool)
  | num (n : Int)
  | str (s : String)
  | arr (elems : List Json)
  | obj (fields : List (String × Json))

/-- Python exceptions arising in `_deserialize_state`, plus the `illTyped`
marker described above. -/
inductive PyErr where
  | keyError
  | typeError
  | attributeError
  | illTyped
deriving DecidableEq, Repr

/-- Python `x.get(key, default)`: `AttributeError` unless `x` is a dict. -/
def pyGet (j : Json) (key : String) (default : Json) : Except PyErr Json :=
  match j with
  | Json.obj fields => Except.ok ((dictGet fields key).getD default)
  | _ => Except.error PyErr.attributeError

/-- Python `x.items()`: `AttributeError` unless `x` is a dict. -/
def pyItems (j : Json) : Except PyErr (List (String × Json)) :=
  match j with
  | Json.obj fields => Except.ok fields
  | _ => Except.error PyErr.attributeError

/-- Python `x[key]` with a string key: `KeyError` when `x` is a dict without
the key, `TypeError` when `x` is not a dict. -/
def pySubscript (j : Json) (key : String) : Except PyErr Json :=
  match j with
  | Json.obj fields =>
    match dictGet fields key with
    | some v => Except.ok v
    | none => Except.error PyErr.keyError
  | _ => Except.error PyErr.typeError

/-- Read a JSON value into a `str` dataclass field (see `illTyped`). -/
def asStr : Json → Except PyErr String
  | Json.str s => Except.ok s
  | _ => Except.error PyErr.illTyped

/-- Read a JSON value into an `Optional[str]` dataclass field. -/
def asOptStr : Json → Except PyErr (Option String)
  | Json.null => Except.ok none
  | Json.str s => Except.ok (some s)
  | _ => Except.error PyErr.illTyped

/-- Element-wise reading of a JSON array into `str` values (first error
propagates, as in Python). -/
def asStrListGo : List Json → Except PyErr (List String)
  | [] => Except.ok []
  | j :: rest => do
    let s ← asStr j
    let t ← asStrListGo rest
    pure (s :: t)

/-- Read a JSON value into a `list[str]` dataclass field. -/
def asStrList : Json → Except PyErr (List String)
  | Json.arr elems => asStrListGo elems
  | _ => Except.error PyErr.illTyped

/-- JSON encoding of an `Optional[str]` value. -/
def optStrJson : Option String → Json
  | none => Json.null
  | some s => Json.str s

/-- The image-entry dict built by `_serialize_state` (state.py). -/
def serializeImageJson (img : CardImageStatus) : Json :=
  Json.obj [
    ("card_id", Json.str img.card_id),
    ("status", Json.str img.status),
    ("path", optStrJson img.path),
    ("error", optStrJson img.error)]

/-- The per-set dict built by `_serialize_state` (state.py). -/
def serializeSetJson (ss : SetScrapeState) : Json :=
  Json.obj [
    ("set_id", Json.str ss.set_id),
    ("last_scraped", optStrJson ss.last_scraped),
    ("card_ids", Json.arr (ss.card_ids.map Json.str)),
    ("images", Json.obj (ss.images.map (fun q => (q.1, serializeImageJson q.2))))]

/-- Serializer `_serialize_state` (state.py). -/
def _serialize_state (state : ScrapeState) : Json :=
  Json.obj [("sets", Json.obj (state.sets.map (fun p => (p.1, serializeSetJson p.2))))]

/-- One image entry of `_deserialize_state`: the `CardImageStatus(...)`
constructor call, sub-expressions in source order. -/
def deserializeImage (img_raw : Json) : Except PyErr CardImageStatus := do
  let cidJ ← pySubscript img_raw "card_id"
  let cid ← asStr cidJ
  let stJ ← pySubscript img_raw "status"
  let st ← asStr stJ
  let pJ ← pyGet img_raw "path" Json.null
  let p ← asOptStr pJ
  let eJ ← pyGet img_raw "error" Json.null
  let e ← asOptStr eJ
  pure { card_id := cid, status := st, path := p, error := e }

/-- The `images` loop of `_deserialize_state`, over the dict items in
order (first raising entry propagates, as in Python). -/
def deserializeImages : List (String × Json) → Except PyErr (List (String × CardImageStatus))
  | [] => Except.ok []
  | q :: rest => do
    let img ← deserializeImage q.2
    let tail ← deserializeImages rest
    pure ((q.1, img) :: tail)

/-- One set entry of `_deserialize_state`: the `images` loop followed by the
`SetScrapeState(...)` constructor call. -/
def deserializeSetEntry (sid : String) (ss_raw : Json) : Except PyErr SetScrapeState := do
  let imgsJ ← pyGet ss_raw "images" (Json.obj [])
  let imgItems ← pyItems imgsJ
  let imgPairs ← deserializeImages imgItems
  let images := imgPairs.foldl (fun acc q => dictInsert acc q.1 q.2) []
  let sidJ ← pyGet ss_raw "set_id" (Json.str sid)
  let set_id ← asStr sidJ
  let lsJ ← pyGet ss_raw "last_scraped" Json.null
  let last_scraped ← asOptStr lsJ
  let cardsJ ← pyGet ss_raw "card_ids" (Json.arr [])
  let card_ids ← asStrList cardsJ
  pure { set_id := set_id, last_scraped := last_scraped,
         card_ids := card_ids, images := images }

/-- The `sets` loop of `_deserialize_state`, over the dict items in
order. -/
def deserializeSets : List (String × Json) → Except PyErr (List (String × SetScrapeState))
  | [] => Except.ok []
  | p :: rest => do
    let ss ← deserializeSetEntry p.1 p.2
    let tail ← deserializeSets rest
    pure ((p.1, ss) :: tail)

/-- Deserializer `_deserialize_state` (state.py). -/
def _deserialize_state (raw : Json) : Except PyErr ScrapeState := do
  let setsJ ← pyGet raw "sets" (Json.obj [])
  let items ← pyItems setsJ
  let pairs ← deserializeSets items
  pure { sets := pairs.foldl (fun acc p => dictInsert acc p.1 p.2) [] }

/-- The state file as seen by `StateTracker._load`: absent, present but
rejected by `json.loads`, or parsed to a JSON document. -/
inductive FileContent where
  | missing
  | invalidJson
  | parsed (j : Json)

/-- Loader `StateTracker._load` (state.py): missing file → fresh state;
`json.JSONDecodeError`, `KeyError` and `TypeError` are caught (fresh state,
warning); any other exception — in particular `AttributeError` — propagates. -/
def StateTracker.load : FileContent → Except PyErr ScrapeState
  | FileContent.missing => Except.ok {}
  | FileContent.invalidJson => Except.ok {}
  | FileContent.parsed j =>
    match _deserialize_state j with
    | Except.ok s => Except.ok s
    | Except.error e =>
      if e = PyErr.keyError ∨ e = PyErr.typeError then Except.ok {}
      else Except.error e

/-! ## scraper.py — card fetch fallback chain

An adapter call is modelled by its outcome: `none` when the call raises,
`some cards` when it returns `cards`.  The adapter list is in priority order
(`AppConfig.enabled_sources` sorts by priority before `Scraper.setup`
instantiates them). -/

/-- The deduplication loop inside `Scraper._fetch_cards` (`seen` set plus
`unique` list; first occurrence of each id kept, order preserved). -/
def dedupGo (seen : List String) : List CardDataBase → List CardDataBase
  | [] => []
  | c :: rest =>
    if c.id ∈ seen then dedupGo seen rest
    else c :: dedupGo (c.id :: seen) rest

/-- Deduplication by card id as performed in `Scraper._fetch_cards`. -/
def dedup_by_id (cards : List CardDataBase) : List CardDataBase :=
  dedupGo [] cards

/-- Fallback fetch `Scraper._fetch_cards` (scraper.py): try each adapter in priority order;
a raising adapter (`none`) is logged and skipped; the first non-empty result
is deduplicated by card id and returned immediately; otherwise `[]`. -/
def fetch_cards : List (Option (List CardDataBase)) → List CardDataBase
  | [] => []
  | none :: rest => fetch_cards rest
  | some cards :: rest =>
    if cards.isEmpty then fetch_cards rest else dedup_by_id cards

/-! ## scraper.py — set discovery -/

/-- Python zero-padded two-digit formatting of the small naturals used in starter-deck ids. -/
def twoDigit (i : Nat) : String :=
  if i < 10 then "0" ++ toString i else toString i

/-- The merge loop of `Scraper._discover_sets`: `if s.id not in all_sets:
all_sets[s.id] = s`, over every listing of every non-raising adapter. -/
def mergeSets (adapters : List (Option (List SetInfo))) : List (String × SetInfo) :=
  adapters.foldl (fun acc res =>
    match res with
    | none => acc
    | some sets =>
      sets.foldl (fun acc s =>
        if (dictGet acc s.id).isSome then acc else acc ++ [(s.id, s)]) acc) []

/-- The synthetic-set augmentation of `Scraper._discover_sets` (scraper.py
lines 227–237), reached only for the onepiece game.  The card-scraper
`ScrapeConfig` (config.py lines 42–49) is a plain dataclass defining
`include_starters` and `include_tokens` but no `include_promos`, so after
the starter-deck insertions (gated by `include_starters`) the read of
`scrape_cfg.include_promos` at scraper.py line 235 raises `AttributeError`
unconditionally, and the escaping exception discards the mutated map
(`_m1` mirrors those dead insertions). -/
def addSynthetic (game : String) (include_starters : Bool)
    (m : List (String × SetInfo)) : Except PyErr (List (String × SetInfo)) :=
  if game = "onepiece" then
    let _m1 :=
      if include_starters then
        ((List.range 19).map (· + 1)).foldl (fun acc i =>
          let sid := "ST-" ++ twoDigit i
          if (dictGet acc sid).isSome then acc
          else acc ++ [(sid, { id := sid,
                               name := "Starter Deck " ++ twoDigit i,
                               category := "starter" })]) m
      else m
    Except.error PyErr.attributeError
  else Except.ok m

/-- Discovery `Scraper._discover_sets` (scraper.py): merge all adapter listings
(first occurrence per id wins), then the game-specific synthetic
augmentation — which raises for the onepiece game, see `addSynthetic` —
then the values sorted ascending by set id. -/
def discover_sets (adapters : List (Option (List SetInfo)))
    (game : String) (include_starters : Bool) : Except PyErr (List SetInfo) :=
  match addSynthetic game include_starters (mergeSets adapters) with
  | Except.error e => Except.error e
  | Except.ok m => Except.ok ((m.map Prod.snd).mergeSort (fun a b => a.id ≤ b.id))

/-! ## onepiece_scraper/downloader.py — image downloader -/

/-- Python `str.split(sep)` for a single-character separator (every
separator `_url_extension` uses — `"?"`, `"#"`, `"/"`, `"."` — is one
character), over the character list of the string. -/
def splitChar (sep : Char) : List Char → List (List Char)
  | [] => [[]]
  | c :: rest =>
    match splitChar sep rest with
    | [] => [[]]
    | h :: t => if c = sep then [] :: h :: t else (c :: h) :: t

/-- Extension guesser `_url_extension` (downloader.py): strip query and fragment, look at the
last path segment; when it contains a dot, take the text after the last dot
of the path (the Python expression takes the text after the rightmost dot of the whole path, which lies in the last
segment whenever the last segment contains a dot), lower-cased, if
whitelisted; otherwise default to `"jpg"`. -/
def _url_extension (url : String) : String :=
  let path := (splitChar '#' ((splitChar '?' url.data).headD [])).headD []
  let lastSeg := (splitChar '/' path).getLastD []
  if '.' ∈ lastSeg then
    let ext := String.mk (((splitChar '.' path).getLastD []).map Char.toLower)
    if ext = "jpg" ∨ ext = "jpeg" ∨ ext = "png" ∨ ext = "webp" ∨ ext = "gif" then
      ext
    else "jpg"
  else "jpg"

/-- Path builder `ImageDownloader.image_path` (downloader.py):
`output_dir / set_id / "cards" / f"{card_id}.{ext}"`, as a path string. -/
def image_path (output_dir set_id card_id : String) (ext : String := "jpg") : String :=
  output_dir ++ "/" ++ set_id ++ "/cards/" ++ card_id ++ "." ++ ext

/-- Constant `MAX_RETRIES` (downloader.py). -/
def MAX_RETRIES : Nat := 3

/-- Result of one `download_card_image` call, with its observable trace:
`attempts` counts HTTP requests issued, `sleeps` lists the backoff delays (in
seconds; `BACKOFF_BASE = 1.0`) in the order they were slept. -/
structure DlResult where
  ok : Bool
  error : Option String
  attempts : Nat
  sleeps : List Nat
deriving DecidableEq, Repr

/-- The retry loop of `download_card_image`: `attemptOutcome k` is the result
of the `k`-th HTTP attempt (`Except.error e` models a transport error or a
non-2xx `raise_for_status`, with exception text `e`).  On failure of a
non-final attempt the loop sleeps `BACKOFF_BASE * 2^(attempt-1)` seconds and
retries; after the final attempt it returns an error naming the attempt
count. -/
def downloadLoop (attemptOutcome : Nat → Except String Unit) (max_retries : Nat) :
    Nat → List Nat → DlResult
  | attempt, slept =>
    match attemptOutcome attempt with
    | Except.ok _ =>
      { ok := true, error := none, attempts := attempt, sleeps := slept }
    | Except.error e =>
      if h : attempt < max_retries then
        downloadLoop attemptOutcome max_retries (attempt + 1)
          (slept ++ [2 ^ (attempt - 1)])
      else
        { ok := false,
          error := some ("Failed after " ++ toString max_retries ++
            " attempts: " ++ e),
          attempts := attempt, sleeps := slept }
termination_by attempt _ => max_retries - attempt

/-- Single-image download `ImageDownloader.download_card_image` (downloader.py).  `fs` is the set
of files on disk; the returned list is the file set after the call. -/
def download_card_image (output_dir : String) (max_retries : Nat)
    (fs : List String) (set_id card_id image_url : String)
    (attemptOutcome : Nat → Except String Unit) : DlResult × List String :=
  if image_url = "" then
    ({ ok := false, error := some "No image URL", attempts := 0, sleeps := [] }, fs)
  else
    let ext := _url_extension image_url
    let dest := image_path output_dir set_id card_id ext
    if dest ∈ fs then
      ({ ok := true, error := none, attempts := 0, sleeps := [] }, fs)
    else
      let r := downloadLoop attemptOutcome max_retries 1 []
      (r, if r.ok then fs ++ [dest] else fs)

/-! ## scraper.py — pipeline control flow (`Scraper.run`)

`Scraper.run` has exactly one early return, at "No sets found from any
adapter", tested on the discovery result BEFORE the allowlist filter is
applied; past that point the fetch loop, the download loop, manifest
generation and the final `save()` all run unconditionally (the loops may
iterate zero times).  `run_trace` records which of those points are
reached, plus the post-filter set list. -/

/-- Observable shape of one `Scraper.run` invocation. -/
structure RunTrace where
  abortedNoSets : Bool
  filteredSets : List SetInfo
  fetchStageReached : Bool
  downloadStageReached : Bool
  manifestsEmitted : Bool
  stateSaved : Bool
deriving DecidableEq, Repr

/-- Control flow of `Scraper.run` (scraper.py, stages 1 and the stage
sequencing): `discovered` is the `_discover_sets` result, `set_filter` the
run argument, `config_set_filter` the configured filter.  The Python idiom
`set_filter or self._config.set_filter` treats `None` and `[]` alike. -/
def run_trace (discovered : List SetInfo) (set_filter : Option (List String))
    (config_set_filter : List String) : RunTrace :=
  if discovered.isEmpty then
    { abortedNoSets := true, filteredSets := [], fetchStageReached := false,
      downloadStageReached := false, manifestsEmitted := false,
      stateSaved := false }
  else
    let filter_ids :=
      match set_filter with
      | some l => if l.isEmpty then config_set_filter else l
      | none => config_set_filter
    let all_sets :=
      if filter_ids.isEmpty then discovered
      else discovered.filter (fun s => decide (s.id ∈ filter_ids))
    { abortedNoSets := false, filteredSets := all_sets,
      fetchStageReached := true, downloadStageReached := true,
      manifestsEmitted := true, stateSaved := true }

/-! ## scraper.py — download-stage status re-derivation -/

/-- The pending subset computed at the top of the per-set download loop
(scraper.py lines 147–152): all fetched cards in force mode, otherwise the
cards not already marked image-success. -/
def pending_subset (st : ScrapeState) (set_id : String)
    (cards : List CardDataBase) (force : Bool) : List CardDataBase :=
  if force then cards
  else cards.filter (fun c => !(st.is_image_downloaded set_id c.id))

/-- The body of the post-batch `for card in to_download` loop (scraper.py
lines 168–175): `image_exists` (with its default `"jpg"` extension) decides
between marking success (with the `image_path` string recorded) and marking
failure. -/
def rederiveStep (output_dir set_id : String) (fsAfter : List String)
    (s : ScrapeState) (c : CardDataBase) : ScrapeState :=
  if image_path output_dir set_id c.id ∈ fsAfter then
    s.mark_image set_id c.id "success"
      (some (image_path output_dir set_id c.id)) none
  else
    s.mark_image set_id c.id "failed" none none

/-- The per-set body of the download stage (scraper.py lines 146–175) after
the batch has run: `fsAfter` is the set of files on disk once the batch
completed.  Each pending card has its status re-derived from
`image_exists`/`image_path` (default extension `"jpg"`), not from the
`(ok, fail)` counts the batch returned — those counts only feed the console
totals and are not inputs here. -/
def download_stage_for_set (st : ScrapeState) (output_dir set_id : String)
    (cards : List CardDataBase) (force : Bool) (fsAfter : List String) :
    ScrapeState :=
  let to_download := pending_subset st set_id cards force
  to_download.foldl (rederiveStep output_dir set_id fsAfter) st

/-! ## Association-list lemmas -/

theorem dictGet_dictInsert_self {v : Type} (l : List (String × v)) (k : String) (x : v) :
    dictGet (dictInsert l k x) k = some x := by
  induction l with
  | nil => simp [dictInsert, dictGet]
  | cons p rest ih =>
    by_cases h : p.1 = k
    · simp [dictInsert, dictGet, h]
    · simp [dictInsert, dictGet, h, ih]

theorem dictGet_dictInsert_ne {v : Type} (l : List (String × v)) (k k' : String) (x : v)
    (h : k' ≠ k) : dictGet (dictInsert l k x) k' = dictGet l k' := by
  induction l with
  | nil => simp [dictInsert, dictGet, Ne.symm h]
  | cons p rest ih =>
    rcases p with ⟨a, b⟩
    by_cases hp : a = k
    · subst hp
      simp [dictInsert, dictGet, Ne.symm h]
    · simp [dictInsert, dictGet, hp, ih]

theorem dictInsert_eq_self {v : Type} (l : List (String × v)) (k : String) (x : v)
    (h : dictGet l k = some x) : dictInsert l k x = l := by
  induction l with
  | nil => simp [dictGet] at h
  | cons p rest ih =>
    rcases p with ⟨a, b⟩
    by_cases hp : a = k
    · subst hp
      have hx : b = x := by simpa [dictGet] using h
      subst hx
      simp [dictInsert]
    · simp only [dictGet, if_neg hp] at h
      simp [dictInsert, hp, ih h]

theorem dictGet_eq_none_iff {v : Type} (l : List (String × v)) (k : String) :
    dictGet l k = none ↔ k ∉ l.map Prod.fst := by
  induction l with
  | nil => simp [dictGet]
  | cons p rest ih =>
    rcases p with ⟨a, b⟩
    by_cases hp : a = k
    · subst hp; simp [dictGet]
    · simp [dictGet, hp, ih, Ne.symm hp]

theorem dictInsert_of_not_mem {v : Type} (l : List (String × v)) (k : String) (x : v)
    (h : dictGet l k = none) : dictInsert l k x = l ++ [(k, x)] := by
  induction l with
  | nil => simp [dictInsert]
  | cons p rest ih =>
    rcases p with ⟨a, b⟩
    by_cases hp : a = k
    · subst hp
      simp [dictGet] at h
    · simp only [dictGet, if_neg hp] at h
      simp [dictInsert, hp, ih h]

theorem foldl_dictInsert_of_nodup {v : Type} (l acc : List (String × v))
    (h : ((acc ++ l).map Prod.fst).Nodup) :
    l.foldl (fun a p => dictInsert a p.1 p.2) acc = acc ++ l := by
  induction l generalizing acc with
  | nil => simp
  | cons p rest ih =>
    have hmem : p.1 ∉ acc.map Prod.fst := by
      intro hmem
      have h2 := h
      simp only [List.map_append, List.nodup_append] at h2
      exact h2.2.2 hmem (by simp)
    have hnone : dictGet acc p.1 = none := (dictGet_eq_none_iff acc p.1).mpr hmem
    have step : dictInsert acc p.1 p.2 = acc ++ [(p.1, p.2)] :=
      dictInsert_of_not_mem acc p.1 p.2 hnone
    have h' : (((acc ++ [(p.1, p.2)]) ++ rest).map Prod.fst).Nodup := by
      simpa using h
    calc (p :: rest).foldl (fun a q => dictInsert a q.1 q.2) acc
        = rest.foldl (fun a q => dictInsert a q.1 q.2) (acc ++ [(p.1, p.2)]) := by
          simp [step]
      _ = (acc ++ [(p.1, p.2)]) ++ rest := ih (acc ++ [(p.1, p.2)]) h'
      _ = acc ++ p :: rest := by simp

/-! ## Claim theorems: state-tracker marking (C9, C10) -/

/-- Claim C9 — Idempotent card marking: for every set id `S` and card id `C`
(over a state whose recorded card-id list for `S` has no duplicates, the
documented invariant), calling `mark_card_scraped S C` any number of times
leaves `C` appearing exactly once in the ordered card-id collection of `S`, at the
position of its first insertion (the list is unchanged when `C` was already
present, and is the old list with `C` appended otherwise), and leaves every
other per-set entry unchanged. -/
theorem mark_card_scraped_idempotent (s : ScrapeState) (S C : String)
    (hnd : (s.cardIds S).Nodup) (n : Nat) :
    ((fun t : ScrapeState => t.mark_card_scraped S C)^[n] (s.mark_card_scraped S C)
        = s.mark_card_scraped S C)
    ∧ ((s.mark_card_scraped S C).cardIds S).count C = 1
    ∧ (s.mark_card_scraped S C).cardIds S
        = (if C ∈ s.cardIds S then s.cardIds S else s.cardIds S ++ [C])
    ∧ (∀ S', S' ≠ S →
        dictGet (s.mark_card_scraped S C).sets S' = dictGet s.sets S') := by
  have hbase : ∀ t : ScrapeState,
      t.cardIds S = ((dictGet t.sets S).getD { set_id := S } : SetScrapeState).card_ids := by
    intro t
    unfold ScrapeState.cardIds
    cases dictGet t.sets S <;> simp
  have hmemIff : C ∈ s.cardIds S ↔
      C ∈ ((dictGet s.sets S).getD { set_id := S } : SetScrapeState).card_ids := by
    rw [hbase s]
  constructor
  · -- idempotence, iterated
    have once : (s.mark_card_scraped S C).mark_card_scraped S C = s.mark_card_scraped S C := by
      unfold ScrapeState.mark_card_scraped
      simp only [dictGet_dictInsert_self, Option.getD_some]
      have hc :
          C ∈ (if C ∈ ((dictGet s.sets S).getD { set_id := S } : SetScrapeState).card_ids then
              ((dictGet s.sets S).getD { set_id := S } : SetScrapeState)
            else { (dictGet s.sets S).getD { set_id := S } with
                card_ids := ((dictGet s.sets S).getD { set_id := S } : SetScrapeState).card_ids ++ [C] }).card_ids := by
        by_cases h : C ∈ ((dictGet s.sets S).getD { set_id := S } : SetScrapeState).card_ids
        · simp [h]
        · simp [h]
      simp only [if_pos hc]
      apply congrArg
      exact dictInsert_eq_self _ _ _ (dictGet_dictInsert_self _ _ _)
    induction n with
    | zero => simp
    | succ m ihm => simp only [Function.iterate_succ_apply, once] at ihm ⊢; exact ihm
  refine ⟨?_, ?_, ?_⟩
  · -- count C = 1
    rw [hbase]
    unfold ScrapeState.mark_card_scraped
    simp only [dictGet_dictInsert_self, Option.getD_some]
    by_cases h : C ∈ ((dictGet s.sets S).getD { set_id := S } : SetScrapeState).card_ids
    · rw [hbase s] at hnd
      simp only [if_pos h]
      exact List.count_eq_one_of_mem hnd h
    · simp only [if_neg h]
      simp [List.count_append, List.count_eq_zero.mpr h]
  · -- resulting list
    rw [hbase]
    unfold ScrapeState.mark_card_scraped
    simp only [dictGet_dictInsert_self, Option.getD_some]
    by_cases h : C ∈ ((dictGet s.sets S).getD { set_id := S } : SetScrapeState).card_ids
    · rw [if_pos h, if_pos (hmemIff.mpr h), hbase s]
    · rw [if_neg h, if_neg (fun hh => h (hmemIff.mp hh)), hbase s]
  · -- other sets untouched
    intro S' hS
    unfold ScrapeState.mark_card_scraped
    exact dictGet_dictInsert_ne _ _ _ _ hS

/-- Closed witness for `mark_card_scraped_idempotent` at a concrete state. -/
theorem mark_card_scraped_idempotent_witness :
    (({ sets := [("OP-01", { set_id := "OP-01", card_ids := ["a"] })] } : ScrapeState).cardIds "OP-01").Nodup
    ∧ ((fun t : ScrapeState => t.mark_card_scraped "OP-01" "b")^[2]
        (({ sets := [("OP-01", { set_id := "OP-01", card_ids := ["a"] })] } : ScrapeState).mark_card_scraped "OP-01" "b")
        = ({ sets := [("OP-01", { set_id := "OP-01", card_ids := ["a"] })] } : ScrapeState).mark_card_scraped "OP-01" "b")
    ∧ ((({ sets := [("OP-01", { set_id := "OP-01", card_ids := ["a"] })] } : ScrapeState).mark_card_scraped "OP-01" "b").cardIds "OP-01").count "b" = 1 := by
  have hnd : (({ sets := [("OP-01", { set_id := "OP-01", card_ids := ["a"] })] } : ScrapeState).cardIds "OP-01").Nodup := by
    simp [ScrapeState.cardIds, dictGet]
  have h := mark_card_scraped_idempotent
    ({ sets := [("OP-01", { set_id := "OP-01", card_ids := ["a"] })] } : ScrapeState)
    "OP-01" "b" hnd 2
  exact ⟨hnd, h.1, h.2.1⟩

/-- Claim C10 — Implicit set-entry creation: marking an image (or a card) for a
set id `S` absent from the state creates the entry for `S` with `last_scraped`
absent; after `mark_image S C "success"`, the images map holds an entry for
`C` although `C` is not in the scraped card-id list of `S`, so `is_card_scraped`
is false while `is_image_downloaded` is true. -/
theorem mark_image_creates_set_entry (s : ScrapeState) (S C : String)
    (st : String) (p e : Option String) (h : dictGet s.sets S = none) :
    (∃ ss, dictGet (s.mark_image S C st p e).sets S = some ss
      ∧ ss.last_scraped = none ∧ ss.card_ids = []
      ∧ dictGet ss.images C = some { card_id := C, status := st, path := p, error := e })
    ∧ (s.mark_image S C st p e).is_card_scraped S C = false
    ∧ (s.mark_image S C "success" p e).is_image_downloaded S C = true
    ∧ (∃ ss, dictGet (s.mark_card_scraped S C).sets S = some ss
      ∧ ss.last_scraped = none) := by
  refine ⟨?_, ?_, ?_, ?_⟩
  · unfold ScrapeState.mark_image
    refine ⟨_, dictGet_dictInsert_self _ _ _, ?_, ?_, ?_⟩ <;>
      simp [h, dictGet_dictInsert_self, dictGet, dictInsert]
  · unfold ScrapeState.is_card_scraped ScrapeState.mark_image
    simp [h, dictGet_dictInsert_self]
  · unfold ScrapeState.is_image_downloaded ScrapeState.mark_image
    simp [h, dictGet_dictInsert_self, dictGet, dictInsert]
  · unfold ScrapeState.mark_card_scraped
    refine ⟨_, dictGet_dictInsert_self _ _ _, ?_⟩
    simp [h]

/-- Closed witness for `mark_image_creates_set_entry` on the empty state. -/
theorem mark_image_creates_set_entry_witness :
    dictGet ({} : ScrapeState).sets "OP-09" = none
    ∧ (({} : ScrapeState).mark_image "OP-09" "c7" "success" (some "/p") none).is_card_scraped "OP-09" "c7" = false
    ∧ (({} : ScrapeState).mark_image "OP-09" "c7" "success" (some "/p") none).is_image_downloaded "OP-09" "c7" = true := by
  have h0 : dictGet ({} : ScrapeState).sets "OP-09" = none := rfl
  have h := mark_image_creates_set_entry ({} : ScrapeState) "OP-09" "c7"
    "success" (some "/p") none h0
  exact ⟨h0, h.2.1, h.2.2.1⟩

/-! ## Claim theorems: state loading (C3) -/

/-- Claim C3 — Corrupt-state loading, evaluated: a missing file and a file that
`json.loads` rejects both yield the empty state, as documented; but a file
whose content is valid JSON of the wrong shape — here the top-level array
`[]` — raises `AttributeError` (from `raw.get("sets", {})` on a list), which
`_load` does not catch, contradicting "loading never raises" and the
corrupt-state-falls-back-to-empty intent that the caught
`JSONDecodeError`/`KeyError`/`TypeError` branch itself documents. -/
theorem load_raises_on_toplevel_array :
    StateTracker.load FileContent.missing = Except.ok {}
    ∧ StateTracker.load FileContent.invalidJson = Except.ok {}
    ∧ StateTracker.load (FileContent.parsed (Json.arr []))
        = Except.error PyErr.attributeError := by
  refine ⟨rfl, rfl, rfl⟩

/-! ## Claim theorems: pipeline control flow (C2) -/

/-- Claim C2 counterexample — With one discovered set `OP-01` and an explicit
allowlist `["OP-02"]`, the filter intersection is empty, yet the run does not
abort: the fetch/download/manifest/save stages are all still reached (the
claim requires none of them to execute). -/
theorem run_trace_empty_filter_still_saves :
    (run_trace [{ id := "OP-01", name := "Romance Dawn", category := "booster" }]
        (some ["OP-02"]) []).filteredSets = []
    ∧ (run_trace [{ id := "OP-01", name := "Romance Dawn", category := "booster" }]
        (some ["OP-02"]) []).abortedNoSets = false
    ∧ (run_trace [{ id := "OP-01", name := "Romance Dawn", category := "booster" }]
        (some ["OP-02"]) []).manifestsEmitted = true
    ∧ (run_trace [{ id := "OP-01", name := "Romance Dawn", category := "booster" }]
        (some ["OP-02"]) []).stateSaved = true := by
  refine ⟨rfl, rfl, rfl, rfl⟩

/-- Claim C2 amended — The early abort of `Scraper.run` fires only when
discovery itself returns no sets, before the allowlist filter is applied;
whenever discovery is non-empty the run proceeds through every later stage
(fetch, download, manifest emission and the final state save all execute,
their loops merely iterating zero times when the filtered set list is
empty). -/
theorem run_trace_abort_only_on_empty_discovery (discovered : List SetInfo)
    (set_filter : Option (List String)) (config_set_filter : List String)
    (h : discovered ≠ []) :
    (run_trace discovered set_filter config_set_filter).abortedNoSets = false
    ∧ (run_trace discovered set_filter config_set_filter).fetchStageReached = true
    ∧ (run_trace discovered set_filter config_set_filter).downloadStageReached = true
    ∧ (run_trace discovered set_filter config_set_filter).manifestsEmitted = true
    ∧ (run_trace discovered set_filter config_set_filter).stateSaved = true
    ∧ (run_trace [] set_filter config_set_filter).abortedNoSets = true := by
  have hne : ¬ discovered.isEmpty := by
    simpa [List.isEmpty_iff] using h
  unfold run_trace
  simp [hne]

/-- Closed witness for `run_trace_abort_only_on_empty_discovery`. -/
theorem run_trace_abort_only_on_empty_discovery_witness :
    ([{ id := "OP-01", name := "Romance Dawn", category := "booster" }] : List SetInfo) ≠ []
    ∧ (run_trace [{ id := "OP-01", name := "Romance Dawn", category := "booster" }]
        (some ["OP-02"]) []).stateSaved = true := by
  refine ⟨by simp, ?_⟩
  exact (run_trace_abort_only_on_empty_discovery
    [{ id := "OP-01", name := "Romance Dawn", category := "booster" }]
    (some ["OP-02"]) [] (by simp)).2.2.2.2.1

/-! ## Deduplication lemmas (for C1) -/

theorem dedupGo_sublist (seen : List String) (l : List CardDataBase) :
    (dedupGo seen l).Sublist l := by
  induction l generalizing seen with
  | nil => simp [dedupGo]
  | cons c rest ih =>
    by_cases h : c.id ∈ seen
    · simp only [dedupGo, if_pos h]
      exact (ih seen).trans (List.sublist_cons_self c rest)
    · simp only [dedupGo, if_neg h]
      exact (ih (c.id :: seen)).cons₂ c

theorem dedupGo_id_not_mem_seen (seen : List String) (l : List CardDataBase) :
    ∀ d ∈ dedupGo seen l, d.id ∉ seen := by
  induction l generalizing seen with
  | nil => simp [dedupGo]
  | cons c rest ih =>
    intro d hd
    by_cases h : c.id ∈ seen
    · simp only [dedupGo, if_pos h] at hd
      exact ih seen d hd
    · simp only [dedupGo, if_neg h, List.mem_cons] at hd
      rcases hd with rfl | hd
      · exact h
      · have := ih (c.id :: seen) d hd
        exact fun hmem => this (List.mem_cons_of_mem _ hmem)

theorem dedupGo_ids_nodup (seen : List String) (l : List CardDataBase) :
    ((dedupGo seen l).map CardDataBase.id).Nodup := by
  induction l generalizing seen with
  | nil => simp [dedupGo]
  | cons c rest ih =>
    by_cases h : c.id ∈ seen
    · simpa only [dedupGo, if_pos h] using ih seen
    · simp only [dedupGo, if_neg h, List.map_cons, List.nodup_cons]
      refine ⟨?_, ih (c.id :: seen)⟩
      intro hmem
      rcases List.mem_map.mp hmem with ⟨d, hd, hid⟩
      exact dedupGo_id_not_mem_seen _ _ d hd (hid ▸ List.mem_cons_self _ _)

theorem dedupGo_find? (seen : List String) (l : List CardDataBase) :
    ∀ d ∈ dedupGo seen l, l.find? (fun x => x.id == d.id) = some d := by
  induction l generalizing seen with
  | nil => simp [dedupGo]
  | cons c rest ih =>
    intro d hd
    by_cases h : c.id ∈ seen
    · simp only [dedupGo, if_pos h] at hd
      have hne : d.id ≠ c.id := by
        intro he
        exact dedupGo_id_not_mem_seen seen rest d hd (he ▸ h)
      have : (c.id == d.id) = false := by
        simp [beq_iff_eq]
        exact fun hh => hne hh.symm
      rw [List.find?_cons_of_neg _ (by simpa using this)]
      exact ih seen d hd
    · simp only [dedupGo, if_neg h, List.mem_cons] at hd
      rcases hd with rfl | hd
      · rw [List.find?_cons_of_pos _ (by simp)]
      · have hne : d.id ≠ c.id := by
          intro he
          exact dedupGo_id_not_mem_seen (c.id :: seen) rest d hd
            (he ▸ List.mem_cons_self _ _)
        have hfalse : (c.id == d.id) = false := by
          simp [beq_iff_eq]
          exact fun hh => hne hh.symm
        rw [List.find?_cons_of_neg _ (by simpa using hfalse)]
        exact ih (c.id :: seen) d hd

theorem dedupGo_covers (seen : List String) (l : List CardDataBase) :
    ∀ c ∈ l, c.id ∈ seen ∨ c.id ∈ (dedupGo seen l).map CardDataBase.id := by
  induction l generalizing seen with
  | nil => simp
  | cons c rest ih =>
    intro x hx
    rcases List.mem_cons.mp hx with rfl | hx
    · by_cases h : x.id ∈ seen
      · exact Or.inl h
      · right
        simp [dedupGo, if_neg h]
    · by_cases h : c.id ∈ seen
      · rcases ih seen x hx with hs | hd
        · exact Or.inl hs
        · right
          simpa [dedupGo, if_pos h] using hd
      · rcases ih (c.id :: seen) x hx with hs | hd
        · rcases List.mem_cons.mp hs with he | hs
          · right
            simp [dedupGo, if_neg h, he]
          · exact Or.inl hs
        · right
          simp only [dedupGo, if_neg h, List.map_cons, List.mem_cons]
          exact Or.inr hd

/-- Skipping raising (`none`) and empty adapters at the head of the chain. -/
theorem fetch_cards_skip (pre rest : List (Option (List CardDataBase)))
    (hpre : ∀ r ∈ pre, r = none ∨ r = some []) :
    fetch_cards (pre ++ rest) = fetch_cards rest := by
  induction pre with
  | nil => rfl
  | cons r pre ih =>
    have hr := hpre r (List.mem_cons_self _ _)
    have htail : ∀ x ∈ pre, x = none ∨ x = some [] :=
      fun x hx => hpre x (List.mem_cons_of_mem _ hx)
    rcases hr with rfl | rfl
    · simpa [fetch_cards] using ih htail
    · simpa [fetch_cards] using ih htail

/-! ## Claim theorem: card-resolver fallback (C1) -/

/-- Claim C1 — Card resolver fallback: when every adapter before the first one
returning a non-empty list raises (`none`) or returns empty, the fetch
returns that list deduplicated by card id — the result is
independent of all later adapters (conjunct 2: dropping them changes
nothing), keeps the first occurrence of each id (conjunct 5), preserves
order (sublist, conjunct 3), has pairwise-distinct ids (conjunct 4) and
covers every fetched id (conjunct 6); and when every adapter raises or
returns empty the result is the empty list, not an error (conjunct 7). -/
theorem fetch_cards_fallback (pre post : List (Option (List CardDataBase)))
    (cs : List CardDataBase) (hpre : ∀ r ∈ pre, r = none ∨ r = some [])
    (hcs : cs ≠ []) :
    fetch_cards (pre ++ some cs :: post) = dedup_by_id cs
    ∧ fetch_cards (pre ++ some cs :: post) = fetch_cards (pre ++ [some cs])
    ∧ (dedup_by_id cs).Sublist cs
    ∧ ((dedup_by_id cs).map CardDataBase.id).Nodup
    ∧ (∀ d ∈ dedup_by_id cs, cs.find? (fun x => x.id == d.id) = some d)
    ∧ (∀ c ∈ cs, c.id ∈ (dedup_by_id cs).map CardDataBase.id)
    ∧ (∀ adapters : List (Option (List CardDataBase)),
        (∀ r ∈ adapters, r = none ∨ r = some []) → fetch_cards adapters = []) := by
  have hne : ¬ cs.isEmpty := by
    simpa [List.isEmpty_iff] using hcs
  have hmain : fetch_cards (pre ++ some cs :: post) = dedup_by_id cs := by
    rw [fetch_cards_skip pre _ hpre]
    simp [fetch_cards, hne]
  have hshort : fetch_cards (pre ++ [some cs]) = dedup_by_id cs := by
    rw [fetch_cards_skip pre _ hpre]
    simp [fetch_cards, hne]
  refine ⟨hmain, hmain.trans hshort.symm, dedupGo_sublist [] cs,
    dedupGo_ids_nodup [] cs, dedupGo_find? [] cs, ?_, ?_⟩
  · intro c hc
    rcases dedupGo_covers [] cs c hc with hs | hd
    · simp at hs
    · exact hd
  · intro adapters hall
    have := fetch_cards_skip adapters [] hall
    simpa using this

/-- Closed witness for `fetch_cards_fallback`: the acceptance example of the spec
(adapter 1 returns `X, X, Y`; adapter 2 returns `Z`; result `X, Y`, adapter
2 never consulted). -/
theorem fetch_cards_fallback_witness :
    fetch_cards
        [some [{ id := "X", name := "x", image_url := "", set_id := "S", source := "a1" },
               { id := "X", name := "x", image_url := "", set_id := "S", source := "a1" },
               { id := "Y", name := "y", image_url := "", set_id := "S", source := "a1" }],
         some [{ id := "Z", name := "z", image_url := "", set_id := "S", source := "a2" }]]
      = [{ id := "X", name := "x", image_url := "", set_id := "S", source := "a1" },
         { id := "Y", name := "y", image_url := "", set_id := "S", source := "a1" }] := by
  have h := fetch_cards_fallback []
    [some [{ id := "Z", name := "z", image_url := "", set_id := "S", source := "a2" }]]
    [{ id := "X", name := "x", image_url := "", set_id := "S", source := "a1" },
     { id := "X", name := "x", image_url := "", set_id := "S", source := "a1" },
     { id := "Y", name := "y", image_url := "", set_id := "S", source := "a1" }]
    (by simp) (by simp)
  rw [show ([] : List (Option (List CardDataBase))) ++
      [some [{ id := "X", name := "x", image_url := "", set_id := "S", source := "a1" },
             { id := "X", name := "x", image_url := "", set_id := "S", source := "a1" },
             { id := "Y", name := "y", image_url := "", set_id := "S", source := "a1" }],
       some [{ id := "Z", name := "z", image_url := "", set_id := "S", source := "a2" }]]
      = [some [{ id := "X", name := "x", image_url := "", set_id := "S", source := "a1" },
               { id := "X", name := "x", image_url := "", set_id := "S", source := "a1" },
               { id := "Y", name := "y", image_url := "", set_id := "S", source := "a1" }],
         some [{ id := "Z", name := "z", image_url := "", set_id := "S", source := "a2" }]] from rfl] at h
  rw [h.1]
  rfl

/-! ## Claim theorems: image downloader (C4, C6) -/

/-- Claim C4 — Retry exhaustion: with a non-empty URL, an absent destination
file, and every HTTP attempt failing (`errs k` is the exception text of the
`k`-th attempt), exactly `MAX_RETRIES = 3` attempts are made, the two
non-final failures sleep `1 * 2^0 = 1` and `1 * 2^1 = 2` seconds
(`BACKOFF_BASE = 1`), the file system is untouched, and the final error
message names the attempt count (`toString MAX_RETRIES` appears in it). -/
theorem download_retry_exhaustion (output_dir : String) (fs : List String)
    (set_id card_id image_url : String) (errs : Nat → String)
    (hurl : image_url ≠ "")
    (hdest : image_path output_dir set_id card_id (_url_extension image_url) ∉ fs) :
    download_card_image output_dir MAX_RETRIES fs set_id card_id image_url
        (fun k => Except.error (errs k))
      = ({ ok := false,
           error := some ("Failed after " ++ toString MAX_RETRIES ++
             " attempts: " ++ errs 3),
           attempts := 3, sleeps := [1, 2] }, fs) := by
  have hloop : downloadLoop (fun k => Except.error (errs k)) MAX_RETRIES 1 []
      = { ok := false,
          error := some ("Failed after " ++ toString MAX_RETRIES ++
            " attempts: " ++ errs 3),
          attempts := 3, sleeps := [1, 2] } := by
    unfold downloadLoop
    norm_num [MAX_RETRIES]
    unfold downloadLoop
    norm_num
    unfold downloadLoop
    norm_num
  simp [download_card_image, hurl, hdest, hloop]

/-- Closed witness for `download_retry_exhaustion`: a URL that always yields
HTTP 500 on an empty file system. -/
theorem download_retry_exhaustion_witness :
    download_card_image "out" MAX_RETRIES [] "OP-01" "OP01-001"
        "http://img.example/OP01-001.png" (fun _ => Except.error "HTTP 500")
      = ({ ok := false, error := some "Failed after 3 attempts: HTTP 500",
           attempts := 3, sleeps := [1, 2] }, []) := by
  have h := download_retry_exhaustion "out" [] "OP-01" "OP01-001"
    "http://img.example/OP01-001.png" (fun _ => "HTTP 500")
    (by simp) (by simp)
  simpa using h

/-- Claim C6 — Existence-based skip: with a non-empty URL, when the destination
file derived from the set id, the card id and the extension guessed from the
URL already exists, `download_card_image` returns success immediately: zero
HTTP attempts, zero backoff sleeps, no error, and the file system is
returned unchanged. -/
theorem download_skip_existing (output_dir : String) (max_retries : Nat)
    (fs : List String) (set_id card_id image_url : String)
    (attemptOutcome : Nat → Except String Unit) (hurl : image_url ≠ "")
    (hdest : image_path output_dir set_id card_id (_url_extension image_url) ∈ fs) :
    download_card_image output_dir max_retries fs set_id card_id image_url
        attemptOutcome
      = ({ ok := true, error := none, attempts := 0, sleeps := [] }, fs) := by
  simp [download_card_image, hurl, hdest]

/-- Closed witness for `download_skip_existing`: the derived destination
path (note the `.png` extension guessed from the URL) is on disk, so the
call succeeds with zero attempts even though every HTTP attempt would
fail. -/
theorem download_skip_existing_witness :
    download_card_image "out" MAX_RETRIES ["out/OP-01/cards/OP01-001.png"]
        "OP-01" "OP01-001" "http://img.example/OP01-001.png?v=2"
        (fun _ => Except.error "HTTP 500")
      = ({ ok := true, error := none, attempts := 0, sleeps := [] },
         ["out/OP-01/cards/OP01-001.png"]) := by
  have h := download_skip_existing "out" MAX_RETRIES
    ["out/OP-01/cards/OP01-001.png"] "OP-01" "OP01-001"
    "http://img.example/OP01-001.png?v=2" (fun _ => Except.error "HTTP 500")
    (by simp) (by decide)
  exact h

/-! ## Merge lemmas (for C7) -/

theorem dictGet_append {v : Type} (l1 l2 : List (String × v)) (k : String) :
    dictGet (l1 ++ l2) k = (dictGet l1 k).or (dictGet l2 k) := by
  induction l1 with
  | nil => simp [dictGet]
  | cons p rest ih =>
    by_cases hp : p.1 = k
    · simp [dictGet, hp]
    · simp [dictGet, hp, ih]

theorem dictGet_foldl_insert (sets : List SetInfo)
    (acc : List (String × SetInfo)) (i : String) :
    dictGet (sets.foldl (fun acc s =>
        if (dictGet acc s.id).isSome then acc else acc ++ [(s.id, s)]) acc) i
      = (dictGet acc i).or (sets.find? (fun s => s.id == i)) := by
  induction sets generalizing acc with
  | nil => simp
  | cons s rest ih =>
    by_cases h : (dictGet acc s.id).isSome
    · rw [List.foldl_cons, if_pos h, ih]
      by_cases hi : s.id = i
      · subst hi
        rcases Option.isSome_iff_exists.mp h with ⟨v, hv⟩
        simp [hv]
      · have : (s.id == i) = false := by simpa using hi
        simp [List.find?_cons, this]
    · rw [List.foldl_cons, if_neg h, ih]
      rw [dictGet_append]
      by_cases hi : s.id = i
      · subst hi
        have hnone : dictGet acc s.id = none := Option.not_isSome_iff_eq_none.mp h
        simp [hnone, dictGet, List.find?_cons]
      · have hfalse : (s.id == i) = false := by simpa using hi
        simp [dictGet, hi, List.find?_cons, hfalse]

theorem dictGet_mergeSets_go (adapters : List (Option (List SetInfo)))
    (acc : List (String × SetInfo)) (i : String) :
    dictGet (adapters.foldl (fun acc res =>
        match res with
        | none => acc
        | some sets =>
          sets.foldl (fun acc s =>
            if (dictGet acc s.id).isSome then acc else acc ++ [(s.id, s)]) acc) acc) i
      = (dictGet acc i).or
          (((adapters.map (fun r => r.getD [])).flatten).find? (fun s => s.id == i)) := by
  induction adapters generalizing acc with
  | nil => simp
  | cons r rest ih =>
    cases r with
    | none => simpa using ih acc
    | some sets =>
      rw [List.foldl_cons]
      show dictGet (rest.foldl _ (sets.foldl _ acc)) i = _
      rw [ih, dictGet_foldl_insert]
      simp [Option.or_assoc, List.find?_append]

/-- First-occurrence-wins characterization of the merged map: the entry for
an id is the first record with that id in the concatenation of all
non-raising adapter listings, in adapter (priority) order. -/
theorem dictGet_mergeSets (adapters : List (Option (List SetInfo))) (i : String) :
    dictGet (mergeSets adapters) i
      = ((adapters.map (fun r => r.getD [])).flatten).find? (fun s => s.id == i) := by
  have h := dictGet_mergeSets_go adapters [] i
  simpa [mergeSets, dictGet] using h

theorem addSynthetic_mtg (b : Bool) (m : List (String × SetInfo)) :
    addSynthetic "mtg" b m = Except.ok m := rfl

theorem addSynthetic_onepiece (b : Bool) (m : List (String × SetInfo)) :
    addSynthetic "onepiece" b m = Except.error PyErr.attributeError := rfl

/-! ## Claim theorem: set-resolver merge (C7) -/

/-- Claim C7, evaluated against the code — Conjunct 1: for the onepiece game
(the repository default) discovery never returns at all: the read of
`scrape_cfg.include_promos` raises `AttributeError` because the card-scraper
`ScrapeConfig` defines no such attribute (it exists only in the sibling
onepiece-scraper configuration this code was ported from), so the claimed
"returns the merged sets sorted ascending by set id" fails there, whatever
the adapters and flags.  The remaining conjuncts show the claim holds on the
other supported game ("mtg", whose branch every non-onepiece game shares):
a raising adapter is skipped without effect (conjunct 2), the merged map
holds for each id the first occurrence in priority order across all
non-raising adapter listings, later metadata for a colliding id being
discarded (conjunct 3), and the output is exactly the merged records sorted
ascending by set id (conjunct 4). -/
theorem discover_sets_onepiece_raises :
    (∀ (adapters : List (Option (List SetInfo))) (b : Bool),
      discover_sets adapters "onepiece" b = Except.error PyErr.attributeError)
    ∧ (∀ (pre post : List (Option (List SetInfo))) (b : Bool),
      discover_sets (pre ++ none :: post) "mtg" b
        = discover_sets (pre ++ post) "mtg" b)
    ∧ (∀ (adapters : List (Option (List SetInfo))) (i : String),
      dictGet (mergeSets adapters) i
        = ((adapters.map (fun r => r.getD [])).flatten).find? (fun s => s.id == i))
    ∧ (∀ (adapters : List (Option (List SetInfo))) (b : Bool),
      ∃ l, discover_sets adapters "mtg" b = Except.ok l
        ∧ l.Perm ((mergeSets adapters).map Prod.snd)
        ∧ l.Pairwise (fun a b => a.id ≤ b.id)) := by
  refine ⟨?_, ?_, fun adapters i => dictGet_mergeSets adapters i, ?_⟩
  · intro adapters b
    rw [discover_sets, addSynthetic_onepiece]
  · intro pre post b
    unfold discover_sets
    have : mergeSets (pre ++ none :: post) = mergeSets (pre ++ post) := by
      unfold mergeSets
      rw [List.foldl_append, List.foldl_append, List.foldl_cons]
    rw [this]
  · intro adapters b
    refine ⟨((mergeSets adapters).map Prod.snd).mergeSort (fun a b => a.id ≤ b.id),
      ?_, List.mergeSort_perm _ _, ?_⟩
    · rw [discover_sets, addSynthetic_mtg]
    · have htrans : ∀ a b c : SetInfo,
          (fun a b : SetInfo => decide (a.id ≤ b.id)) a b →
          (fun a b : SetInfo => decide (a.id ≤ b.id)) b c →
          (fun a b : SetInfo => decide (a.id ≤ b.id)) a c := by
        intro a b c hab hbc
        simp only [decide_eq_true_eq] at hab hbc ⊢
        exact le_trans hab hbc
      have htotal : ∀ a b : SetInfo,
          ((fun a b : SetInfo => decide (a.id ≤ b.id)) a b
            || (fun a b : SetInfo => decide (a.id ≤ b.id)) b a) := by
        intro a b
        simpa using le_total a.id b.id
      have h := List.sorted_mergeSort htrans htotal
        ((mergeSets adapters).map Prod.snd)
      exact h.imp (fun hab => by simpa using hab)

/-! ## Round-trip lemmas (for C5) -/

theorem exceptOkBind {ε α β : Type} (a : α) (f : α → Except ε β) :
    (Except.ok a >>= f) = f a := rfl

theorem asOptStr_optStrJson (o : Option String) :
    asOptStr (optStrJson o) = Except.ok o := by
  cases o <;> rfl

theorem asStrList_map_str (l : List String) :
    asStrList (Json.arr (l.map Json.str)) = Except.ok l := by
  show asStrListGo (l.map Json.str) = Except.ok l
  induction l with
  | nil => rfl
  | cons s rest ih => simp [asStrListGo, asStr, exceptOkBind, ih]

theorem deserializeImage_serialize (img : CardImageStatus) :
    deserializeImage (serializeImageJson img) = Except.ok img := by
  rcases img with ⟨cid, st, p, e⟩
  cases p <;> cases e <;> rfl

theorem deserializeImages_serialize (l : List (String × CardImageStatus)) :
    deserializeImages (l.map (fun q => (q.1, serializeImageJson q.2)))
      = Except.ok l := by
  induction l with
  | nil => rfl
  | cons q rest ih =>
    simp [deserializeImages, deserializeImage_serialize, exceptOkBind, ih]

theorem deserializeSetEntry_serialize (sid : String) (ss : SetScrapeState)
    (h : (ss.images.map Prod.fst).Nodup) :
    deserializeSetEntry sid (serializeSetJson ss) = Except.ok ss := by
  have himgs : pyGet (serializeSetJson ss) "images" (Json.obj [])
      = Except.ok (Json.obj (ss.images.map (fun q => (q.1, serializeImageJson q.2)))) := rfl
  have hsid : pyGet (serializeSetJson ss) "set_id" (Json.str sid)
      = Except.ok (Json.str ss.set_id) := rfl
  have hls : pyGet (serializeSetJson ss) "last_scraped" Json.null
      = Except.ok (optStrJson ss.last_scraped) := rfl
  have hcards : pyGet (serializeSetJson ss) "card_ids" (Json.arr [])
      = Except.ok (Json.arr (ss.card_ids.map Json.str)) := rfl
  have hfold : (ss.images).foldl (fun acc q => dictInsert acc q.1 q.2) [] = ss.images := by
    have := foldl_dictInsert_of_nodup ss.images [] (by simpa using h)
    simpa using this
  rw [deserializeSetEntry, himgs, exceptOkBind]
  rw [show pyItems (Json.obj (ss.images.map (fun q => (q.1, serializeImageJson q.2))))
      = Except.ok (ss.images.map (fun q => (q.1, serializeImageJson q.2))) from rfl,
    exceptOkBind]
  rw [deserializeImages_serialize, exceptOkBind]
  rw [hsid, exceptOkBind]
  rw [show asStr (Json.str ss.set_id) = Except.ok ss.set_id from rfl, exceptOkBind]
  rw [hls, exceptOkBind]
  rw [asOptStr_optStrJson, exceptOkBind]
  rw [hcards, exceptOkBind]
  rw [asStrList_map_str, exceptOkBind]
  rw [hfold]
  rfl

theorem deserializeSets_serialize (sets : List (String × SetScrapeState))
    (h : ∀ p ∈ sets, ((p.2.images.map Prod.fst)).Nodup) :
    deserializeSets (sets.map (fun p => (p.1, serializeSetJson p.2)))
      = Except.ok sets := by
  induction sets with
  | nil => rfl
  | cons p rest ih =>
    have hp := h p (List.mem_cons_self _ _)
    have hrest : ∀ q ∈ rest, ((q.2.images.map Prod.fst)).Nodup :=
      fun q hq => h q (List.mem_cons_of_mem _ hq)
    simp [deserializeSets, deserializeSetEntry_serialize p.1 p.2 hp,
      exceptOkBind, ih hrest]

/-! ## Claim theorem: serialization round-trip (C5) -/

/-- A well-formed `ScrapeState`: dict keys are unique (the invariant Python
dicts maintain by construction). -/
def ScrapeState.wf (s : ScrapeState) : Prop :=
  (s.sets.map Prod.fst).Nodup ∧ ∀ p ∈ s.sets, ((p.2.images.map Prod.fst)).Nodup

/-- Claim C5 — Serialization round-trip: for every well-formed `ScrapeState`,
serializing with the `_serialize_state` function behind `save()` and loading the produced JSON
document on a fresh tracker yields exactly the original state — every per-set
id, `last_scraped`, ordered card-id list and per-card image status
(status/path/error) is reproduced. -/
theorem save_load_roundtrip (s : ScrapeState) (h : s.wf) :
    _deserialize_state (_serialize_state s) = Except.ok s
    ∧ StateTracker.load (FileContent.parsed (_serialize_state s)) = Except.ok s := by
  have hdeser : _deserialize_state (_serialize_state s) = Except.ok s := by
    rw [_deserialize_state]
    rw [show pyGet (_serialize_state s) "sets" (Json.obj [])
        = Except.ok (Json.obj (s.sets.map (fun p => (p.1, serializeSetJson p.2)))) from rfl,
      exceptOkBind]
    rw [show pyItems (Json.obj (s.sets.map (fun p => (p.1, serializeSetJson p.2))))
        = Except.ok (s.sets.map (fun p => (p.1, serializeSetJson p.2))) from rfl,
      exceptOkBind]
    rw [deserializeSets_serialize s.sets h.2, exceptOkBind]
    have hfold := foldl_dictInsert_of_nodup s.sets [] (by simpa using h.1)
    simp only [List.nil_append] at hfold
    rw [hfold]
    rfl
  refine ⟨hdeser, ?_⟩
  rw [StateTracker.load, hdeser]

/-- Closed witness for `save_load_roundtrip` at a concrete two-set state. -/
theorem save_load_roundtrip_witness :
    ({ sets := [
        ("OP-01", { set_id := "OP-01", last_scraped := some "2025-01-01T00:00:00+00:00",
                    card_ids := ["OP01-001", "OP01-002"],
                    images := [
                      ("OP01-001", { card_id := "OP01-001", status := "success",
                                     path := some "out/OP-01/cards/OP01-001.jpg" }),
                      ("OP01-002", { card_id := "OP01-002", status := "failed",
                                     error := some "HTTP 404" })] }),
        ("OP-02", { set_id := "OP-02" })] } : ScrapeState).wf
    ∧ StateTracker.load (FileContent.parsed (_serialize_state
        { sets := [
          ("OP-01", { set_id := "OP-01", last_scraped := some "2025-01-01T00:00:00+00:00",
                      card_ids := ["OP01-001", "OP01-002"],
                      images := [
                        ("OP01-001", { card_id := "OP01-001", status := "success",
                                       path := some "out/OP-01/cards/OP01-001.jpg" }),
                        ("OP01-002", { card_id := "OP01-002", status := "failed",
                                       error := some "HTTP 404" })] }),
          ("OP-02", { set_id := "OP-02" })] }))
      = Except.ok
        { sets := [
          ("OP-01", { set_id := "OP-01", last_scraped := some "2025-01-01T00:00:00+00:00",
                      card_ids := ["OP01-001", "OP01-002"],
                      images := [
                        ("OP01-001", { card_id := "OP01-001", status := "success",
                                       path := some "out/OP-01/cards/OP01-001.jpg" }),
                        ("OP01-002", { card_id := "OP01-002", status := "failed",
                                       error := some "HTTP 404" })] }),
          ("OP-02", { set_id := "OP-02" })] } := by
  constructor
  · constructor
    · decide
    · intro p hp
      fin_cases hp <;> decide
  · exact (save_load_roundtrip _ ⟨by decide, by intro p hp; fin_cases hp <;> decide⟩).2

/-! ## Download-stage lemmas (for C8) -/

/-- The stored image record for a card of a set, if any. -/
def lookupImage (s : ScrapeState) (set_id card_id : String) : Option CardImageStatus :=
  (dictGet s.sets set_id).bind (fun ss => dictGet ss.images card_id)

theorem lookupImage_mark_image_self (s : ScrapeState) (set_id card_id st : String)
    (p e : Option String) :
    lookupImage (s.mark_image set_id card_id st p e) set_id card_id
      = some { card_id := card_id, status := st, path := p, error := e } := by
  unfold lookupImage ScrapeState.mark_image
  simp [dictGet_dictInsert_self]

theorem lookupImage_mark_image_ne (s : ScrapeState) (set_id card_id cid' st : String)
    (p e : Option String) (h : cid' ≠ card_id) :
    lookupImage (s.mark_image set_id card_id st p e) set_id cid'
      = lookupImage s set_id cid' := by
  unfold lookupImage ScrapeState.mark_image
  simp only [dictGet_dictInsert_self, Option.bind_some]
  cases hs : dictGet s.sets set_id with
  | none => simp [dictGet_dictInsert_ne _ _ _ _ h, dictGet, Ne.symm h]
  | some ss => simp [dictGet_dictInsert_ne _ _ _ _ h]

/-- `is_image_downloaded` through the `lookupImage` lens. -/
theorem is_image_downloaded_eq_lookup (s : ScrapeState) (set_id card_id : String) :
    s.is_image_downloaded set_id card_id
      = ((lookupImage s set_id card_id).map
          (fun img => decide (img.status = "success"))).getD false := by
  unfold ScrapeState.is_image_downloaded lookupImage
  cases dictGet s.sets set_id with
  | none => rfl
  | some ss =>
    cases h2 : dictGet ss.images card_id <;> simp [h2]

theorem fold_rederive_preserve (output_dir set_id : String) (fsAfter : List String)
    (l : List CardDataBase) (st : ScrapeState) (cid : String)
    (h : ∀ x ∈ l, x.id ≠ cid) :
    lookupImage (l.foldl (rederiveStep output_dir set_id fsAfter) st) set_id cid
      = lookupImage st set_id cid := by
  induction l generalizing st with
  | nil => rfl
  | cons c rest ih =>
    have hc := h c (List.mem_cons_self _ _)
    have hrest : ∀ x ∈ rest, x.id ≠ cid := fun x hx => h x (List.mem_cons_of_mem _ hx)
    rw [List.foldl_cons, ih _ hrest]
    unfold rederiveStep
    by_cases hin : image_path output_dir set_id c.id ∈ fsAfter
    · rw [if_pos hin, lookupImage_mark_image_ne _ _ _ _ _ _ _ (fun he => hc he.symm)]
    · rw [if_neg hin, lookupImage_mark_image_ne _ _ _ _ _ _ _ (fun he => hc he.symm)]

theorem fold_rederive_lookup (output_dir set_id : String) (fsAfter : List String)
    (l : List CardDataBase) (st : ScrapeState) (cid : String)
    (h : cid ∈ l.map CardDataBase.id) :
    lookupImage (l.foldl (rederiveStep output_dir set_id fsAfter) st) set_id cid
      = some (if image_path output_dir set_id cid ∈ fsAfter
          then { card_id := cid, status := "success",
                 path := some (image_path output_dir set_id cid), error := none }
          else { card_id := cid, status := "failed", path := none, error := none }) := by
  induction l generalizing st with
  | nil => simp at h
  | cons c rest ih =>
    by_cases hrest : cid ∈ rest.map CardDataBase.id
    · rw [List.foldl_cons]
      exact ih _ hrest
    · have hcid : c.id = cid := by
        rcases List.mem_cons.mp h with he | he
        · exact he.symm
        · exact absurd he hrest
      have hne : ∀ x ∈ rest, x.id ≠ cid := by
        intro x hx he
        exact hrest (he ▸ List.mem_map_of_mem CardDataBase.id hx)
      rw [List.foldl_cons, fold_rederive_preserve _ _ _ _ _ _ hne]
      unfold rederiveStep
      rw [hcid]
      by_cases hin : image_path output_dir set_id cid ∈ fsAfter
      · rw [if_pos hin, if_pos hin, lookupImage_mark_image_self]
      · rw [if_neg hin, if_neg hin, lookupImage_mark_image_self]

/-! ## Claim theorem: download-stage status re-derivation (C8) -/

/-- Claim C8 — After the download batch of a set completes, every card of the
pending subset has its image status re-derived from actual on-disk file
existence (`fsAfter`): it is recorded as `"success"` — with the derived
image path stored — exactly when the file exists, and as `"failed"` (no
path) otherwise.  The `(ok, fail)` counts the batch returned in memory are
not inputs of `download_stage_for_set` at all, so the outcome is independent
of them. -/
theorem download_stage_rederives (st : ScrapeState) (output_dir set_id : String)
    (cards : List CardDataBase) (force : Bool) (fsAfter : List String)
    (c : CardDataBase) (hc : c ∈ pending_subset st set_id cards force) :
    ((download_stage_for_set st output_dir set_id cards force fsAfter).is_image_downloaded
        set_id c.id = true
      ↔ image_path output_dir set_id c.id ∈ fsAfter)
    ∧ lookupImage (download_stage_for_set st output_dir set_id cards force fsAfter)
        set_id c.id
      = some (if image_path output_dir set_id c.id ∈ fsAfter
          then { card_id := c.id, status := "success",
                 path := some (image_path output_dir set_id c.id), error := none }
          else { card_id := c.id, status := "failed", path := none, error := none }) := by
  have hmem : c.id ∈ (pending_subset st set_id cards force).map CardDataBase.id :=
    List.mem_map_of_mem CardDataBase.id hc
  have hlook := fold_rederive_lookup output_dir set_id fsAfter
    (pending_subset st set_id cards force) st c.id hmem
  have hstage : download_stage_for_set st output_dir set_id cards force fsAfter
      = (pending_subset st set_id cards force).foldl
          (rederiveStep output_dir set_id fsAfter) st := rfl
  refine ⟨?_, by rw [hstage]; exact hlook⟩
  rw [is_image_downloaded_eq_lookup, hstage, hlook]
  by_cases hin : image_path output_dir set_id c.id ∈ fsAfter
  · simp [hin]
  · simp [hin]

/-- Closed witness for `download_stage_rederives`: one pending card whose
file is on disk after the batch. -/
theorem download_stage_rederives_witness :
    ({ id := "OP01-001", name := "a", image_url := "u", set_id := "OP-01", source := "s" } : CardDataBase) ∈ pending_subset {} "OP-01" [{ id := "OP01-001", name := "a", image_url := "u", set_id := "OP-01", source := "s" }] false
    ∧ ((download_stage_for_set {} "out" "OP-01" [{ id := "OP01-001", name := "a", image_url := "u", set_id := "OP-01", source := "s" }] false ["out/OP-01/cards/OP01-001.jpg"]).is_image_downloaded "OP-01" "OP01-001" = true
        ↔ ("out/OP-01/cards/OP01-001.jpg" : String) ∈ (["out/OP-01/cards/OP01-001.jpg"] : List String)) := by
  have hmem : ({ id := "OP01-001", name := "a", image_url := "u", set_id := "OP-01", source := "s" } : CardDataBase) ∈ pending_subset {} "OP-01" [{ id := "OP01-001", name := "a", image_url := "u", set_id := "OP-01", source := "s" }] false := by
    simp [pending_subset, ScrapeState.is_image_downloaded, dictGet]
  have h := download_stage_rederives {} "out" "OP-01" [{ id := "OP01-001", name := "a", image_url := "u", set_id := "OP-01", source := "s" }] false ["out/OP-01/cards/OP01-001.jpg"] { id := "OP01-001", name := "a", image_url := "u", set_id := "OP-01", source := "s" } hmem
  refine ⟨hmem, ?_⟩
  have h1 := h.1
  rw [show image_path "out" "OP-01" ({ id := "OP01-001", name := "a", image_url := "u", set_id := "OP-01", source := "s" } : CardDataBase).id = "out/OP-01/cards/OP01-001.jpg" by decide] at h1
  exact h1

end Manamesh
